import Mathlib

/-!
# Shard mutation operations and session serialization: a verification development

A shallow embedding, in Lean, of the shard-mutation operations of
`go/vt/wrangler/shard.go` (the lock/unlock protocol, `SetShardServedTypes`,
`DeleteShard`, `RemoveShardCell`) and of the BSON serialization of
`ShardSession` from `go/vt/vtgate/proto/vtgate_proto.go`, together with
theorems about their behavior.

The topology store is modelled as a behavior record (`TopoServer`): the
outcome of every store call an operation may make is a field, with per-cell
calls being functions of the cell (and served type).  The behavior record is
implicitly specialized to one `(keyspace, shard)` pair, so those arguments
are kept only where the Go code uses them observably (in error messages).
Operations are pure functions of the behavior record; they return the Go
error result together with the ordered list of store mutations and
`log.Warningf` warnings they perform (`TopoEffect`).  `log.Infof` lines are
not modelled.
-/

namespace Vitess

/-- A Go `error` value as seen by the wrangler code.  `errNoNode` is the
distinguished `topo.ErrNoNode` sentinel; `storeErr n` stands for the opaque,
pairwise-distinct error values produced inside the topology store or its
client libraries; `errMsg s` is an error built by `fmt.Errorf` at a wrangler
call site (in Go such a value is a fresh allocation, so it never compares
equal to a store-produced error). -/
inductive GoError where
  | errNoNode : GoError
  | storeErr : Nat → GoError
  | errMsg : String → GoError
deriving DecidableEq, Repr

/-- The message text of an error (Go `err.Error()`, what `%v` formats).
`topo.ErrNoNode` carries the message "node doesn\x27t exist"; the text of an
opaque store error is not observable in any claim, so any injective
rendering works. -/
def goErrorMsg : GoError → String
  | .errNoNode => "node doesn\x27t exist"
  | .storeErr n => "store error " ++ toString n
  | .errMsg s => s

/-- A served type (Go `topo.TabletType` is a string type). -/
abbrev TabletType := String

/-- A tablet identity: the cell it lives in plus a numeric uid
(`topo.TabletAlias`). -/
structure TabletAlias where
  cell : String
  uid : Nat
deriving DecidableEq, Repr

/-- Modelled from the spec: the `%v` rendering of a `topo.TabletAlias`
(its `String()` method lives outside `src/`); it mentions the cell and the
uid.  Only injectivity of the rendering matters to the claims. -/
def tabletAliasString (a : TabletAlias) : String :=
  a.cell ++ "-" ++ toString a.uid

/-- The authoritative shard record (`topo.ShardInfo`, §3 of the spec):
identified by keyspace and shard name, carrying the master alias, the key
range, the served types and the list of cells with tablets. -/
structure ShardInfo where
  keyspace : String
  shardName : String
  masterAlias : TabletAlias
  keyRange : String
  servedTypes : List TabletType
  cells : List String
deriving DecidableEq, Repr

/-- The terminal states of an action audit record. -/
inductive ActionState where
  | queued : ActionState
  | done : ActionState
  | failed : ActionState
deriving DecidableEq, Repr

/-- Modelled from the spec: the `actionnode.ActionNode` audit record
(package `tabletmanager/actionnode` is not under `src/`): `{Kind, State ∈
{Queued, Done, Failed}, Error}` plus an action-specific payload (here the
new served-types list), created fresh per call. -/
structure ActionNode where
  action : String
  state : ActionState
  error : String
  servedTypes : List TabletType
deriving DecidableEq, Repr

/-- Modelled from the spec: `actionnode.SetShardServedTypes(servedTypes)`
builds a fresh node in state `Queued` carrying the requested list. -/
def ActionNodeSetShardServedTypes (servedTypes : List TabletType) : ActionNode :=
  { action := "SetShardServedTypes", state := .queued, error := "", servedTypes := servedTypes }

/-- Modelled from the spec: `actionnode.UpdateShard()` builds a fresh node
in state `Queued` with no payload. -/
def ActionNodeUpdateShard : ActionNode :=
  { action := "UpdateShard", state := .queued, error := "", servedTypes := [] }

/-- Modelled from the spec: `topo.InCellList` (not under `src/`); per §4.5
the validation is "cell must be present in `Shard.Cells`". -/
def inCellList (cell : String) (cells : List String) : Bool :=
  cells.contains cell

/-- Modelled from the spec: `topo.AllTabletTypes` (not under `src/`); a
concrete list of roles, of which only the ones in the serving graph are
acted on by `DeleteShard`. -/
def allTabletTypes : List TabletType :=
  ["idle", "master", "replica", "rdonly", "spare", "backup", "scrap"]

/-- Modelled from the spec: `topo.IsInServingGraph` (not under `src/`);
per §4.4 only "every served role that participates in the serving
directory" is visited. -/
def isInServingGraph (t : TabletType) : Bool :=
  t = "master" ∨ t = "replica" ∨ t = "rdonly"

/-- The behavior of the topology store for one `(keyspace, shard)`: the
outcome of every store call the shard operations may make.
`getShardReplication` returns the cell's `ReplicationLinks` list (only its
length is ever inspected, so links are left abstract as naturals). -/
structure TopoServer where
  lockShardForAction : Except GoError String
  unlockShardForAction : Option GoError
  getShard : Except GoError ShardInfo
  getShardCritical : Except GoError ShardInfo
  getTabletMapForShard : Except GoError (List TabletAlias)
  getShardReplication : String → Except GoError (List Nat)
  deleteShardReplication : String → Option GoError
  deleteSrvTabletType : String → TabletType → Option GoError
  deleteSrvShard : String → Option GoError
  updateShard : Option GoError
  deleteShard : Option GoError

/-- A store mutation, lock transition, or `log.Warningf` warning performed
by an operation, in program order.  Reads are not effects. -/
inductive TopoEffect where
  | lockShard : ActionNode → TopoEffect
  | unlockShard : ActionNode → TopoEffect
  | updateShard : ShardInfo → TopoEffect
  | deleteShard : TopoEffect
  | deleteShardReplication : String → TopoEffect
  | deleteSrvTabletType : String → TabletType → TopoEffect
  | deleteSrvShard : String → TopoEffect
  | warning : String → TopoEffect
deriving DecidableEq, Repr

/-- The ActionNode payloads written to the store (serialized at lock
acquisition and at unlock), in order. -/
def nodeWrites (effs : List TopoEffect) : List ActionNode :=
  effs.filterMap (fun e =>
    match e with
    | .lockShard n => some n
    | .unlockShard n => some n
    | _ => none)

/-- The warning messages among a list of effects, in order. -/
def effectWarnings (effs : List TopoEffect) : List String :=
  effs.filterMap (fun e =>
    match e with
    | .warning w => some w
    | _ => none)

/-- `unlockShard` (shard.go lines 22-42): stamp the node `Failed` with the
error text when the guarded body failed, `Done` with empty error otherwise;
call the store's unlock; when `actionError` is non-nil return it and only
log an unlock failure, otherwise return the unlock result.  Returns
(returned error, final node, effects). -/
def unlockShard (ts : TopoServer) (actionNode : ActionNode) (actionError : Option GoError) :
    Option GoError × ActionNode × List TopoEffect :=
  match actionError with
  | some e =>
    let node := { actionNode with error := goErrorMsg e, state := ActionState.failed }
    let warn := match ts.unlockShardForAction with
      | some ue => [TopoEffect.warning ("UnlockShardForAction failed: " ++ goErrorMsg ue)]
      | none => []
    (some e, node, TopoEffect.unlockShard node :: warn)
  | none =>
    let node := { actionNode with error := "", state := ActionState.done }
    (ts.unlockShardForAction, node, [TopoEffect.unlockShard node])

/-- `setShardServedTypes` (lines 58-66): read the shard record, overwrite
its `ServedTypes` with the requested list, write it back. -/
def setShardServedTypes (ts : TopoServer) (servedTypes : List TabletType) :
    Option GoError × List TopoEffect :=
  match ts.getShard with
  | .error e => (some e, [])
  | .ok shardInfo =>
    let si := { shardInfo with servedTypes := servedTypes }
    (ts.updateShard, [TopoEffect.updateShard si])

/-- `SetShardServedTypes` (lines 46-56): build a fresh action node, lock
the shard, run the guarded body, release the lock with the body's result.
Returns (returned error, final node, effects). -/
def SetShardServedTypes (ts : TopoServer) (servedTypes : List TabletType) :
    Option GoError × ActionNode × List TopoEffect :=
  let actionNode := ActionNodeSetShardServedTypes servedTypes
  match ts.lockShardForAction with
  | .error e => (some e, actionNode, [TopoEffect.lockShard actionNode])
  | .ok _ =>
    let r := setShardServedTypes ts servedTypes
    let u := unlockShard ts actionNode r.1
    (u.1, u.2.1, TopoEffect.lockShard actionNode :: (r.2 ++ u.2.2))

/-- The `ShardNotEmpty` error of `DeleteShard` (line 82). -/
def shardNotEmptyError (keyspace shard : String) (n : Nat) : GoError :=
  .errMsg ("shard " ++ keyspace ++ "/" ++ shard ++ " still has " ++ toString n ++ " tablets")

/-- Per-cell cleanup body of `DeleteShard` (lines 86-104): delete the
cell's `ShardReplication` record (any failure, `ErrNoNode` included, is
logged as a warning), then each in-serving-graph per-type serving entry and
the serving-shard entry (failures other than `ErrNoNode` are logged as
warnings).  Never fails: it only produces effects. -/
def deleteShardCellCleanup (ts : TopoServer) (keyspace shard cell : String) : List TopoEffect :=
  let replEffs :=
    TopoEffect.deleteShardReplication cell ::
      (match ts.deleteShardReplication cell with
       | some err =>
         [TopoEffect.warning ("Cannot delete ShardReplication in cell " ++ cell ++ " for " ++
           keyspace ++ "/" ++ shard ++ ": " ++ goErrorMsg err)]
       | none => [])
  let srvTypeEffs := allTabletTypes.flatMap (fun t =>
    if ¬ isInServingGraph t then []
    else
      TopoEffect.deleteSrvTabletType cell t ::
        (match ts.deleteSrvTabletType cell t with
         | some err =>
           if err = GoError.errNoNode then []
           else
             [TopoEffect.warning ("Cannot delete EndPoints in cell " ++ cell ++ " for " ++
               keyspace ++ "/" ++ shard ++ "/" ++ t ++ ": " ++ goErrorMsg err)]
         | none => []))
  let srvShardEffs :=
    TopoEffect.deleteSrvShard cell ::
      (match ts.deleteSrvShard cell with
       | some err =>
         if err = GoError.errNoNode then []
         else
           [TopoEffect.warning ("Cannot delete SrvShard in cell " ++ cell ++ " for " ++
             keyspace ++ "/" ++ shard ++ ": " ++ goErrorMsg err)]
       | none => [])
  replEffs ++ srvTypeEffs ++ srvShardEffs

/-- `DeleteShard` (lines 71-107): read the shard record, fetch the
cluster-wide tablet map, fail with `ShardNotEmpty` when it is non-empty;
otherwise run the best-effort per-cell cleanup over `Shard.Cells` and
finish by deleting the authoritative record, whose error is the result. -/
def DeleteShard (ts : TopoServer) (keyspace shard : String) :
    Option GoError × List TopoEffect :=
  match ts.getShard with
  | .error e => (some e, [])
  | .ok shardInfo =>
    match ts.getTabletMapForShard with
    | .error e => (some e, [])
    | .ok tabletMap =>
      if tabletMap.length > 0 then
        (some (shardNotEmptyError keyspace shard tabletMap.length), [])
      else
        let cleanup := shardInfo.cells.flatMap (deleteShardCellCleanup ts keyspace shard)
        (ts.deleteShard, cleanup ++ [TopoEffect.deleteShard])

/-- The `CellNotPresent` error of `removeShardCell` (line 133, with the
source's wording kept verbatim). -/
def cellNotInShardError (cell : String) : GoError :=
  .errMsg ("cell " ++ cell ++ " in not in shard info")

/-- The `MasterInCell` error of `removeShardCell` (line 138). -/
def masterInCellError (master : TabletAlias) (cell : String) : GoError :=
  .errMsg ("master " ++ tabletAliasString master ++ " is in the cell \x27" ++ cell ++
    "\x27 we want to remove")

/-- The `ReplicationLinksPresent` error of `removeShardCell` (line 146). -/
def replicationLinksError (cell : String) (n : Nat) : GoError :=
  .errMsg ("cell " ++ cell ++ " has " ++ toString n ++ " possible tablets in replication graph")

/-- `removeShardCell` (lines 125-177): strongly-consistent read, membership
check, master-cell check, then the `GetShardReplication` switch (non-empty
links fail; an empty record is deleted; `ErrNoNode` is fine; any other
lookup error fails unless `force`, which logs and continues); finally the
cell is removed from `Cells` (a filter preserving order) and the record is
written back. -/
def removeShardCell (ts : TopoServer) (cell : String) (force : Bool) :
    Option GoError × List TopoEffect :=
  match ts.getShardCritical with
  | .error e => (some e, [])
  | .ok shardInfo =>
    if ¬ inCellList cell shardInfo.cells then
      (some (cellNotInShardError cell), [])
    else if shardInfo.masterAlias.cell = cell then
      (some (masterInCellError shardInfo.masterAlias cell), [])
    else
      let step : Except GoError Unit × List TopoEffect :=
        match ts.getShardReplication cell with
        | .ok sri =>
          if sri.length > 0 then
            (.error (replicationLinksError cell sri.length), [])
          else
            (match ts.deleteShardReplication cell with
             | some err =>
               (.error (.errMsg ("error deleting ShardReplication object in cell " ++ cell ++
                  ": " ++ goErrorMsg err)),
                [TopoEffect.deleteShardReplication cell])
             | none => (.ok (), [TopoEffect.deleteShardReplication cell]))
        | .error GoError.errNoNode => (.ok (), [])
        | .error err =>
          if force then
            (.ok (), [TopoEffect.warning ("Cannot get ShardReplication from cell " ++ cell ++
              ", assuming cell topo server is down, and forcing the removal")])
          else (.error err, [])
      match step with
      | (.error e, effs) => (some e, effs)
      | (.ok _, effs) =>
        let newCells := shardInfo.cells.filter (fun c => decide (c ≠ cell))
        let si := { shardInfo with cells := newCells }
        (ts.updateShard, effs ++ [TopoEffect.updateShard si])

/-- `RemoveShardCell` (lines 114-123): build a fresh `UpdateShard` action
node, lock the shard, run `removeShardCell`, release the lock with the
body's result.  Returns (returned error, final node, effects). -/
def RemoveShardCell (ts : TopoServer) (cell : String) (force : Bool) :
    Option GoError × ActionNode × List TopoEffect :=
  let actionNode := ActionNodeUpdateShard
  match ts.lockShardForAction with
  | .error e => (some e, actionNode, [TopoEffect.lockShard actionNode])
  | .ok _ =>
    let r := removeShardCell ts cell force
    let u := unlockShard ts actionNode r.1
    (u.1, u.2.1, TopoEffect.lockShard actionNode :: (r.2 ++ u.2.2))

/-!
## BSON serialization of `ShardSession` (`go/vt/vtgate/proto/vtgate_proto.go`)

The `MarshalBson`/`UnmarshalBson` methods in `src/` drive primitives of the
repository's `go/bson` package, which is not under `src/` (the spec treats
the wire format as an external collaborator).  Those primitives are
modelled here at the byte level, faithful to the BSON wire format they
implement: little-endian 32/64-bit integers, cstring keys, strings encoded
as BSON `Binary` elements (length, subtype byte, raw bytes), `int64` as
BSON `Long`.  Byte sequences are `List Nat`; Go strings are byte lists. -/

/-- Modelled from the spec: the BSON element-kind constants of the
`go/bson` package (end-of-object). -/
def bsonEOO : Nat := 0

/-- BSON kind: UTF-8 string element. -/
def bsonString : Nat := 2

/-- BSON kind: embedded document. -/
def bsonObject : Nat := 3

/-- BSON kind: array. -/
def bsonArray : Nat := 4

/-- BSON kind: binary element (how `go/bson` encodes Go strings). -/
def bsonBinary : Nat := 5

/-- BSON kind: null. -/
def bsonNull : Nat := 10

/-- BSON kind: 32-bit integer. -/
def bsonInt : Nat := 16

/-- BSON kind: 64-bit integer. -/
def bsonLong : Nat := 18

/-- BSON kind: unsigned 64-bit integer (a `go/bson` extension). -/
def bsonUlong : Nat := 63

/-- Modelled from the spec: `bson.putUint32` -- a `Nat` as 4 little-endian
bytes, truncating like Go's `uint32` conversion. -/
def putUint32 (n : Nat) : List Nat :=
  [n % 256, n / 256 % 256, n / 65536 % 256, n / 16777216 % 256]

/-- Modelled from the spec: `bson.putUint64` -- a `Nat` as 8 little-endian
bytes, truncating like Go's `uint64` conversion. -/
def putUint64 (n : Nat) : List Nat :=
  [n % 256, n / 256 % 256, n / 65536 % 256, n / 16777216 % 256,
   n / 4294967296 % 256, n / 1099511627776 % 256,
   n / 281474976710656 % 256, n / 72057594037927936 % 256]

/-- Little-endian reassembly of a byte list (`bson.Pack.Uint32/Uint64`). -/
def packUint (bs : List Nat) : Nat :=
  bs.foldr (fun b acc => b + 256 * acc) 0

/-- Go's `uint64(v)` conversion of an `int64`: the two's-complement bit
pattern as a natural number. -/
def uint64OfInt64 (v : Int) : Nat :=
  (v % 18446744073709551616).toNat

/-- Go's `int64(w)` conversion of a `uint64`: reinterpret the bit pattern
in two's complement. -/
def int64OfUint64 (w : Nat) : Int :=
  if w < 9223372036854775808 then (w : Int) else (w : Int) - 18446744073709551616

/-- Modelled from the spec: `bson.Next(buf, n)` -- take exactly `n` bytes
or panic (`none`). -/
def bsonNext (n : Nat) (buf : List Nat) : Option (List Nat × List Nat) :=
  if n ≤ buf.length then some (buf.take n, buf.drop n) else none

/-- Modelled from the spec: `bson.ReadCString` -- the bytes up to and
consuming the first 0 byte. -/
def readCString : List Nat → Option (List Nat × List Nat)
  | [] => none
  | b :: rest =>
    if b = 0 then some ([], rest)
    else
      match readCString rest with
      | some (k, r) => some (b :: k, r)
      | none => none

/-- The bytes of a Go string literal (keys are ASCII, so `Char.toNat`). -/
def strBytes (s : String) : List Nat :=
  s.data.map Char.toNat

/-- Modelled from the spec: `bson.EncodeString` -- Go strings are encoded
as `Binary` elements: kind byte, key cstring, 32-bit byte length, subtype
byte 0, raw bytes. -/
def encodeString (key : List Nat) (val : List Nat) : List Nat :=
  bsonBinary :: key ++ [0] ++ putUint32 val.length ++ [0] ++ val

/-- Modelled from the spec: `bson.EncodeInt64` -- kind `Long`, key
cstring, 8 little-endian bytes of the two's-complement pattern. -/
def encodeInt64 (key : List Nat) (val : Int) : List Nat :=
  bsonLong :: key ++ [0] ++ putUint64 (uint64OfInt64 val)

/-- Modelled from the spec: `bson.DecodeString` -- accepts `String`
(length includes a trailing 0), `Binary` (length, subtype byte, raw
bytes) and `Null`; panics (`none`) on other kinds. -/
def decodeString (kind : Nat) (buf : List Nat) : Option (List Nat × List Nat) :=
  if kind = bsonString then
    match bsonNext 4 buf with
    | some (lb, rest) =>
      match bsonNext (packUint lb - 1) rest with
      | some (s, rest2) =>
        match rest2 with
        | _ :: rest3 => some (s, rest3)
        | [] => none
      | none => none
    | none => none
  else if kind = bsonBinary then
    match bsonNext 4 buf with
    | some (lb, rest) =>
      match rest with
      | _ :: rest2 =>
        match bsonNext (packUint lb) rest2 with
        | some (s, rest3) => some (s, rest3)
        | none => none
      | [] => none
    | none => none
  else if kind = bsonNull then some ([], buf)
  else none

/-- Modelled from the spec: `bson.DecodeInt64` -- accepts `Int` (sign
extended), `Long` and `Ulong`; panics (`none`) on other kinds. -/
def decodeInt64 (kind : Nat) (buf : List Nat) : Option (Int × List Nat) :=
  if kind = bsonInt then
    match bsonNext 4 buf with
    | some (lb, rest) =>
      let w := packUint lb
      some (if w < 2147483648 then (w : Int) else (w : Int) - 4294967296, rest)
    | none => none
  else if kind = bsonLong ∨ kind = bsonUlong then
    match bsonNext 8 buf with
    | some (lb, rest) => some (int64OfUint64 (packUint lb), rest)
    | none => none
  else none

/-- Modelled from the spec: `bson.Skip` for the element kinds that can
appear here; panics (`none`) on unknown kinds. -/
def bsonSkip (kind : Nat) (buf : List Nat) : Option (List Nat) :=
  if kind = bsonString then
    match bsonNext 4 buf with
    | some (lb, rest) => (bsonNext (packUint lb) rest).map (fun p => p.2)
    | none => none
  else if kind = bsonBinary then
    match bsonNext 4 buf with
    | some (lb, rest) => (bsonNext (packUint lb + 1) rest).map (fun p => p.2)
    | none => none
  else if kind = bsonObject ∨ kind = bsonArray then
    match bsonNext 4 buf with
    | some (lb, rest) => (bsonNext (packUint lb - 4) rest).map (fun p => p.2)
    | none => none
  else if kind = bsonLong ∨ kind = bsonUlong then
    (bsonNext 8 buf).map (fun p => p.2)
  else if kind = bsonInt then
    (bsonNext 4 buf).map (fun p => p.2)
  else if kind = bsonNull then some buf
  else none

/-- The session state for one shard (`vtgate_proto.go` lines 28-33).
String fields are byte lists; `TransactionId` is a Go `int64`. -/
structure ShardSession where
  keyspace : List Nat
  shard : List Nat
  tabletType : List Nat
  transactionId : Int
deriving DecidableEq, Repr

/-- The zero `ShardSession` that `new(ShardSession)` yields. -/
def zeroShardSession : ShardSession :=
  { keyspace := [], shard := [], tabletType := [], transactionId := 0 }

/-- The element body written by `ShardSession.MarshalBson` (vtgate_proto.go
lines 66-71): the four fields in source order, then the terminating EOO
byte. -/
def shardSessionBody (s : ShardSession) : List Nat :=
  encodeString (strBytes "Keyspace") s.keyspace ++
    encodeString (strBytes "Shard") s.shard ++
    encodeString (strBytes "TabletType") s.tabletType ++
    encodeInt64 (strBytes "TransactionId") s.transactionId ++ [bsonEOO]

/-- `ShardSession.MarshalBson` (vtgate_proto.go lines 61-73) at top level
(the optional key prefix elided, as when marshalling a root document): a
32-bit total length, then the body; the `LenWriter` records the whole
document length including the length field itself. -/
def marshalShardSession (s : ShardSession) : List Nat :=
  putUint32 ((shardSessionBody s).length + 4) ++ shardSessionBody s

/-- The element loop of `ShardSession.UnmarshalBson` (lines 126-142): read
a kind byte, stop at EOO, read the key cstring, dispatch on the key name
(unknown keys are skipped), recurse.  Fuel bounds the iteration count; the
caller passes the buffer length, which every iteration strictly shrinks. -/
def unmarshalFields : Nat → List Nat → ShardSession → Option ShardSession
  | 0, _, _ => none
  | fuel + 1, buf, s =>
    match buf with
    | [] => none
    | kind :: rest =>
      if kind = bsonEOO then some s
      else
        match readCString rest with
        | none => none
        | some (keyName, rest1) =>
          if keyName = strBytes "Keyspace" then
            match decodeString kind rest1 with
            | some (v, rest2) => unmarshalFields fuel rest2 { s with keyspace := v }
            | none => none
          else if keyName = strBytes "Shard" then
            match decodeString kind rest1 with
            | some (v, rest2) => unmarshalFields fuel rest2 { s with shard := v }
            | none => none
          else if keyName = strBytes "TabletType" then
            match decodeString kind rest1 with
            | some (v, rest2) => unmarshalFields fuel rest2 { s with tabletType := v }
            | none => none
          else if keyName = strBytes "TransactionId" then
            match decodeInt64 kind rest1 with
            | some (v, rest2) => unmarshalFields fuel rest2 { s with transactionId := v }
            | none => none
          else
            match bsonSkip kind rest1 with
            | some rest2 => unmarshalFields fuel rest2 s
            | none => none

/-- `ShardSession.UnmarshalBson` (lines 122-143): `VerifyObject` accepts
kinds `EOO` and `Object`, the 32-bit length is skipped unexamined, and the
element loop folds over a fresh zero session. -/
def unmarshalShardSession (buf : List Nat) (kind : Nat) : Option ShardSession :=
  if kind = bsonEOO ∨ kind = bsonObject then
    match bsonNext 4 buf with
    | some (_, rest) => unmarshalFields buf.length rest zeroShardSession
    | none => none
  else none

/-!
## Concrete scenarios

A healthy baseline shard and store behavior, specialized by record updates
in the concrete theorems below. -/

/-- A baseline shard record: master in `cellA`, three cells. -/
def siBase : ShardInfo :=
  { keyspace := "ks", shardName := "-80", masterAlias := { cell := "cellA", uid := 100 },
    keyRange := "-80", servedTypes := ["master", "replica"], cells := ["cellA", "cellB", "cellC"] }

/-- A baseline store behavior where every call succeeds, the tablet map is
empty and every replication record is empty. -/
def tsBase : TopoServer :=
  { lockShardForAction := .ok "/zk/lock-0001"
    unlockShardForAction := none
    getShard := .ok siBase
    getShardCritical := .ok siBase
    getTabletMapForShard := .ok []
    getShardReplication := fun _ => .ok []
    deleteShardReplication := fun _ => none
    deleteSrvTabletType := fun _ _ => none
    deleteSrvShard := fun _ => none
    updateShard := none
    deleteShard := none }

/-- A shard record naming a master cell that is absent from `Cells` (the
master's datacenter was dropped from the list). -/
def siMasterGone : ShardInfo :=
  { siBase with masterAlias := { cell := "cellZ", uid := 7 }, cells := ["cellA"] }

/-- A store serving `siMasterGone`. -/
def tsMasterGone : TopoServer :=
  { tsBase with getShardCritical := Except.ok siMasterGone }

/-- A store where only the unlock call fails. -/
def tsUnlockFail : TopoServer :=
  { tsBase with unlockShardForAction := some (.storeErr 7) }

/-- A store where one tablet is still registered for the shard. -/
def tsOneTablet : TopoServer :=
  { tsBase with getTabletMapForShard := .ok [⟨"cellA", 101⟩] }

/-- A store where deleting replication records and serving-shard entries
reports `ErrNoNode` everywhere (all derived state already gone). -/
def tsNoNodeCleanup : TopoServer :=
  { tsBase with
      deleteShardReplication := fun _ => some .errNoNode
      deleteSrvShard := fun _ => some .errNoNode }

/-- A store where the replication lookup in `cellB` fails with an opaque
store error (the cell's topology server is unreachable). -/
def tsCellDown : TopoServer :=
  { tsBase with getShardReplication := fun c =>
      if c = "cellB" then .error (.storeErr 42) else .ok [] }

/-- The first byte length that no longer fits the 32-bit BSON length
field. -/
def twoPow32 : Nat := 4294967296

/-- A session whose keyspace is exactly 2^32 zero bytes: its byte length
overflows the 32-bit BSON length field. -/
def bigShardSession : ShardSession :=
  { keyspace := List.replicate twoPow32 0, shard := [], tabletType := [], transactionId := 0 }

/-- A small concrete session for witnesses. -/
def sampleShardSession : ShardSession :=
  { keyspace := strBytes "ks", shard := strBytes "-80",
    tabletType := strBytes "master", transactionId := -12345 }

/-!
## Helper lemmas: BSON primitives -/

theorem bsonNext_append (l r : List Nat) : bsonNext l.length (l ++ r) = some (l, r) := by
  simp [bsonNext]

theorem bsonNext_putUint32 (n : Nat) (r : List Nat) :
    bsonNext 4 (putUint32 n ++ r) = some (putUint32 n, r) :=
  bsonNext_append (putUint32 n) r

theorem bsonNext_putUint64 (n : Nat) (r : List Nat) :
    bsonNext 8 (putUint64 n ++ r) = some (putUint64 n, r) :=
  bsonNext_append (putUint64 n) r

theorem packUint_putUint32 (n : Nat) (h : n < 4294967296) : packUint (putUint32 n) = n := by
  simp only [packUint, putUint32, List.foldr]
  omega

theorem packUint_putUint64 (n : Nat) (h : n < 18446744073709551616) :
    packUint (putUint64 n) = n := by
  simp only [packUint, putUint64, List.foldr]
  omega

theorem uint64OfInt64_lt (v : Int) : uint64OfInt64 v < 18446744073709551616 := by
  unfold uint64OfInt64
  omega

theorem int64_roundtrip (v : Int) (hlo : -9223372036854775808 ≤ v)
    (hhi : v < 9223372036854775808) : int64OfUint64 (uint64OfInt64 v) = v := by
  unfold int64OfUint64 uint64OfInt64
  split <;> omega

theorem readCString_append (key rest : List Nat) (h : 0 ∉ key) :
    readCString (key ++ 0 :: rest) = some (key, rest) := by
  induction key with
  | nil => simp [readCString]
  | cons b bs ih =>
    have hb : b ≠ 0 := fun e => h (by simp [e])
    have hbs : 0 ∉ bs := fun m => h (by simp [m])
    simp [readCString, hb, ih hbs]

theorem decodeString_binary (v rest : List Nat) (h : v.length < 4294967296) :
    decodeString bsonBinary (putUint32 v.length ++ (0 :: (v ++ rest))) = some (v, rest) := by
  unfold decodeString
  rw [if_neg (by decide), if_pos rfl, bsonNext_putUint32]
  simp only [packUint_putUint32 _ h, bsonNext_append]

theorem decodeInt64_long (v : Int) (rest : List Nat) (hlo : -9223372036854775808 ≤ v)
    (hhi : v < 9223372036854775808) :
    decodeInt64 bsonLong (putUint64 (uint64OfInt64 v) ++ rest) = some (v, rest) := by
  unfold decodeInt64
  rw [if_neg (by decide), if_pos (Or.inl rfl), bsonNext_putUint64]
  simp only [packUint_putUint64 _ (uint64OfInt64_lt v), int64_roundtrip v hlo hhi]

theorem unmarshalFields_eoo (fuel : Nat) (rest : List Nat) (s : ShardSession) :
    unmarshalFields (fuel + 1) (bsonEOO :: rest) s = some s := by
  simp [unmarshalFields]

theorem unmarshalFields_keyspace (fuel : Nat) (v rest : List Nat) (s : ShardSession)
    (h : v.length < 4294967296) :
    unmarshalFields (fuel + 1) (encodeString (strBytes "Keyspace") v ++ rest) s =
      unmarshalFields fuel rest { s with keyspace := v } := by
  have hb : encodeString (strBytes "Keyspace") v ++ rest =
      bsonBinary :: (strBytes "Keyspace" ++ (0 :: (putUint32 v.length ++ (0 :: (v ++ rest))))) := by
    simp [encodeString]
  rw [hb]
  simp [unmarshalFields, readCString_append _ _ (by decide : (0 : Nat) ∉ strBytes "Keyspace"),
    decodeString_binary _ _ h, (by decide : bsonBinary ≠ bsonEOO)]

theorem unmarshalFields_shard (fuel : Nat) (v rest : List Nat) (s : ShardSession)
    (h : v.length < 4294967296) :
    unmarshalFields (fuel + 1) (encodeString (strBytes "Shard") v ++ rest) s =
      unmarshalFields fuel rest { s with shard := v } := by
  have hb : encodeString (strBytes "Shard") v ++ rest =
      bsonBinary :: (strBytes "Shard" ++ (0 :: (putUint32 v.length ++ (0 :: (v ++ rest))))) := by
    simp [encodeString]
  rw [hb]
  simp [unmarshalFields, readCString_append _ _ (by decide : (0 : Nat) ∉ strBytes "Shard"),
    decodeString_binary _ _ h, (by decide : bsonBinary ≠ bsonEOO),
    (by decide : strBytes "Shard" ≠ strBytes "Keyspace")]

theorem unmarshalFields_tabletType (fuel : Nat) (v rest : List Nat) (s : ShardSession)
    (h : v.length < 4294967296) :
    unmarshalFields (fuel + 1) (encodeString (strBytes "TabletType") v ++ rest) s =
      unmarshalFields fuel rest { s with tabletType := v } := by
  have hb : encodeString (strBytes "TabletType") v ++ rest =
      bsonBinary :: (strBytes "TabletType" ++ (0 :: (putUint32 v.length ++ (0 :: (v ++ rest))))) := by
    simp [encodeString]
  rw [hb]
  simp [unmarshalFields, readCString_append _ _ (by decide : (0 : Nat) ∉ strBytes "TabletType"),
    decodeString_binary _ _ h, (by decide : bsonBinary ≠ bsonEOO),
    (by decide : strBytes "TabletType" ≠ strBytes "Keyspace"),
    (by decide : strBytes "TabletType" ≠ strBytes "Shard")]

theorem unmarshalFields_transactionId (fuel : Nat) (v : Int) (rest : List Nat) (s : ShardSession)
    (hlo : -9223372036854775808 ≤ v) (hhi : v < 9223372036854775808) :
    unmarshalFields (fuel + 1) (encodeInt64 (strBytes "TransactionId") v ++ rest) s =
      unmarshalFields fuel rest { s with transactionId := v } := by
  have hb : encodeInt64 (strBytes "TransactionId") v ++ rest =
      bsonLong :: (strBytes "TransactionId" ++ (0 :: (putUint64 (uint64OfInt64 v) ++ rest))) := by
    simp [encodeInt64]
  rw [hb]
  simp [unmarshalFields,
    readCString_append _ _ (by decide : (0 : Nat) ∉ strBytes "TransactionId"),
    decodeInt64_long _ _ hlo hhi, (by decide : bsonLong ≠ bsonEOO),
    (by decide : strBytes "TransactionId" ≠ strBytes "Keyspace"),
    (by decide : strBytes "TransactionId" ≠ strBytes "Shard"),
    (by decide : strBytes "TransactionId" ≠ strBytes "TabletType")]

/-- C10 (amended): serializing a `ShardSession` with `MarshalBson` and
deserializing the bytes with `UnmarshalBson` restores the `Keyspace`,
`Shard`, `TabletType` and `TransactionId` fields exactly, for every session
whose string fields are each shorter than 2^32 bytes (the BSON length field
is 32 bits wide) and whose transaction id is a 64-bit value (automatic for
a Go `int64`). -/
theorem shardSession_roundtrip (s : ShardSession)
    (h1 : s.keyspace.length < 4294967296) (h2 : s.shard.length < 4294967296)
    (h3 : s.tabletType.length < 4294967296)
    (h4 : -9223372036854775808 ≤ s.transactionId)
    (h5 : s.transactionId < 9223372036854775808) :
    unmarshalShardSession (marshalShardSession s) bsonObject = some s := by
  have hms : marshalShardSession s =
      putUint32 ((shardSessionBody s).length + 4) ++ shardSessionBody s := rfl
  unfold unmarshalShardSession
  rw [if_pos (Or.inr rfl), hms, bsonNext_putUint32]
  have hlen : (putUint32 ((shardSessionBody s).length + 4) ++ shardSessionBody s).length =
      (shardSessionBody s).length + 4 := by
    simp [putUint32]
  rw [hlen]
  have hb1 : 1 ≤ (shardSessionBody s).length := by
    simp only [shardSessionBody, List.length_append, List.length_singleton]
    omega
  obtain ⟨m, hm⟩ : ∃ m, (shardSessionBody s).length + 4 = m + 1 + 1 + 1 + 1 + 1 :=
    ⟨(shardSessionBody s).length - 1, by omega⟩
  rw [hm]
  show unmarshalFields (m + 1 + 1 + 1 + 1 + 1) (shardSessionBody s) zeroShardSession = some s
  rw [show shardSessionBody s =
      encodeString (strBytes "Keyspace") s.keyspace ++
        (encodeString (strBytes "Shard") s.shard ++
          (encodeString (strBytes "TabletType") s.tabletType ++
            (encodeInt64 (strBytes "TransactionId") s.transactionId ++ [bsonEOO]))) from by
    simp [shardSessionBody]]
  rw [unmarshalFields_keyspace _ _ _ _ h1, unmarshalFields_shard _ _ _ _ h2,
    unmarshalFields_tabletType _ _ _ _ h3, unmarshalFields_transactionId _ _ _ _ h4 h5,
    unmarshalFields_eoo]

/-- Witness: the round-trip theorem applies at a small concrete session
(its hypotheses hold there). -/
theorem shardSession_roundtrip_witness :
    sampleShardSession.keyspace.length < 4294967296 ∧
    sampleShardSession.shard.length < 4294967296 ∧
    sampleShardSession.tabletType.length < 4294967296 ∧
    -9223372036854775808 ≤ sampleShardSession.transactionId ∧
    sampleShardSession.transactionId < 9223372036854775808 ∧
    unmarshalShardSession (marshalShardSession sampleShardSession) bsonObject =
      some sampleShardSession :=
  ⟨by decide, by decide, by decide, by decide, by decide,
    shardSession_roundtrip sampleShardSession (by decide) (by decide) (by decide) (by decide)
      (by decide)⟩

theorem decodeString_binary_zeroLen (buf : List Nat) :
    decodeString bsonBinary ([0, 0, 0, 0] ++ (0 :: buf)) = some ([], buf) := by
  have h := decodeString_binary [] buf (by decide)
  simpa using h

/-- The buffer seen by the element loop when an `EncodeString` element is
followed by further bytes, re-associated to the right. -/
theorem encodeString_append_form (key v rest : List Nat) :
    encodeString key v ++ rest =
      bsonBinary :: (key ++ (0 :: (putUint32 v.length ++ (0 :: (v ++ rest))))) := by
  simp [encodeString]

/-- One loop step on a `Keyspace` element with an arbitrary remaining
buffer: the kind byte and the key cstring are consumed, then the value is
decoded as a string. -/
theorem unmarshalFields_keyspace_raw (fuel : Nat) (buf : List Nat) (s : ShardSession) :
    unmarshalFields (fuel + 1) (bsonBinary :: (strBytes "Keyspace" ++ (0 :: buf))) s =
      (match decodeString bsonBinary buf with
       | some (v, rest2) => unmarshalFields fuel rest2 { s with keyspace := v }
       | none => none) := by
  simp [unmarshalFields, readCString_append _ _ (by decide : (0 : Nat) ∉ strBytes "Keyspace"),
    (by decide : bsonBinary ≠ bsonEOO)]

/-- A loop step whose kind byte is the literal 0 terminates (0 is the EOO
kind). -/
theorem unmarshalFields_zero (fuel : Nat) (rest : List Nat) (s : ShardSession) :
    unmarshalFields (fuel + 1) (0 :: rest) s = some s :=
  unmarshalFields_eoo fuel rest s

/-- A 2^32-fold replicate is a cons. -/
theorem replicate_twoPow32_cons (rest : List Nat) :
    List.replicate twoPow32 (0 : Nat) ++ rest =
      0 :: (List.replicate (twoPow32 - 1) 0 ++ rest) := by
  have h : twoPow32 = (twoPow32 - 1) + 1 := by decide
  conv_lhs => rw [h, List.replicate_succ]
  rw [List.cons_append]

/-- One loop step on a `Keyspace` element whose payload is exactly 2^32
zero bytes: the encoded length field overflows to 0, so the decoder takes
an empty string and then reads the first payload byte as an EOO kind,
terminating with the remaining fields still unread. -/
theorem unmarshalFields_keyspace_overflow (fuel : Nat) (rest : List Nat) (s : ShardSession) :
    unmarshalFields (fuel + 1 + 1)
      (encodeString (strBytes "Keyspace") (List.replicate twoPow32 0) ++ rest) s =
      some { s with keyspace := [] } := by
  rw [encodeString_append_form, List.length_replicate,
    show putUint32 twoPow32 = [0, 0, 0, 0] from by decide,
    replicate_twoPow32_cons, unmarshalFields_keyspace_raw, decodeString_binary_zeroLen]
  exact unmarshalFields_zero fuel _ _

/-- C10 (counterexample): round-trip identity fails as stated for a
`ShardSession` whose `Keyspace` is 2^32 bytes long -- marshalling truncates
the 32-bit BSON length field to 0, and unmarshalling the produced bytes
yields the zero session instead. -/
theorem shardSession_roundtrip_counterexample :
    unmarshalShardSession (marshalShardSession bigShardSession) bsonObject =
      some zeroShardSession ∧
    unmarshalShardSession (marshalShardSession bigShardSession) bsonObject ≠
      some bigShardSession := by
  have hmain : unmarshalShardSession (marshalShardSession bigShardSession) bsonObject =
      some zeroShardSession := by
    have hms : marshalShardSession bigShardSession =
        putUint32 ((shardSessionBody bigShardSession).length + 4) ++
          shardSessionBody bigShardSession := rfl
    unfold unmarshalShardSession
    rw [if_pos (Or.inr rfl), hms, bsonNext_putUint32]
    have hlen : (putUint32 ((shardSessionBody bigShardSession).length + 4) ++
        shardSessionBody bigShardSession).length =
          (shardSessionBody bigShardSession).length + 4 := by
      rw [List.length_append,
        show (putUint32 ((shardSessionBody bigShardSession).length + 4)).length = 4 from rfl]
      omega
    rw [hlen]
    obtain ⟨m, hm⟩ : ∃ m, (shardSessionBody bigShardSession).length + 4 = m + 1 + 1 :=
      ⟨(shardSessionBody bigShardSession).length + 2, by omega⟩
    rw [hm]
    show unmarshalFields (m + 1 + 1) (shardSessionBody bigShardSession) zeroShardSession =
      some zeroShardSession
    have hbody : shardSessionBody bigShardSession =
        encodeString (strBytes "Keyspace") (List.replicate twoPow32 0) ++
          (encodeString (strBytes "Shard") [] ++
            (encodeString (strBytes "TabletType") [] ++
              (encodeInt64 (strBytes "TransactionId") 0 ++ [bsonEOO]))) := by
      simp [shardSessionBody, bigShardSession, List.append_assoc]
    rw [hbody, unmarshalFields_keyspace_overflow]
    rfl
  refine ⟨hmain, ?_⟩
  rw [hmain]
  intro heq
  have hz : zeroShardSession = bigShardSession := Option.some.inj heq
  have hk : ([] : List Nat) = List.replicate twoPow32 0 :=
    congrArg ShardSession.keyspace hz
  have hlen : (0 : Nat) = twoPow32 := by
    have := congrArg List.length hk
    simpa using this
  exact (by decide : twoPow32 ≠ 0) hlen.symm

/-!
## Helper lemmas: the unlock step -/

theorem unlockShard_state_spec (ts : TopoServer) (node : ActionNode) (ae : Option GoError) :
    (unlockShard ts node ae).2.1.state =
      (if ae.isSome then ActionState.failed else ActionState.done) ∧
    (unlockShard ts node ae).2.1.error =
      (match ae with | some e => goErrorMsg e | none => "") := by
  cases ae <;> simp [unlockShard]

theorem nodeWrites_unlockShard (ts : TopoServer) (node : ActionNode) (ae : Option GoError) :
    nodeWrites (unlockShard ts node ae).2.2 = [(unlockShard ts node ae).2.1] := by
  cases ae <;> cases hu : ts.unlockShardForAction <;> simp [unlockShard, nodeWrites, hu]

theorem nodeWrites_cons_lock (n : ActionNode) (a b : List TopoEffect) :
    nodeWrites (TopoEffect.lockShard n :: (a ++ b)) = n :: (nodeWrites a ++ nodeWrites b) := by
  simp [nodeWrites]

theorem nodeWrites_setShardServedTypes (ts : TopoServer) (st : List TabletType) :
    nodeWrites (setShardServedTypes ts st).2 = [] := by
  unfold setShardServedTypes
  cases ts.getShard <;> simp [nodeWrites]

theorem nodeWrites_removeShardCell (ts : TopoServer) (cell : String) (force : Bool) :
    nodeWrites (removeShardCell ts cell force).2 = [] := by
  unfold removeShardCell
  repeat' split
  all_goals simp [nodeWrites]

/-- C4: for every non-nil `actionError`, the release step returns exactly
that error, even when the store's unlock call itself fails; an unlock
failure is only logged as a warning and never replaces the original
error. -/
theorem unlockShard_preserves_action_error (ts : TopoServer) (node : ActionNode)
    (e : GoError) :
    (unlockShard ts node (some e)).1 = some e ∧
    (∀ ue, ts.unlockShardForAction = some ue →
      TopoEffect.warning ("UnlockShardForAction failed: " ++ goErrorMsg ue) ∈
        (unlockShard ts node (some e)).2.2) := by
  refine ⟨by simp [unlockShard], ?_⟩
  intro ue hue
  simp [unlockShard, hue]

/-- Witness for C4: at a concrete failing unlock, the original error is
returned and the unlock failure is logged. -/
theorem unlockShard_preserves_action_error_witness :
    (unlockShard tsUnlockFail ActionNodeUpdateShard (some (GoError.storeErr 3))).1 =
      some (GoError.storeErr 3) ∧
    TopoEffect.warning ("UnlockShardForAction failed: " ++ goErrorMsg (GoError.storeErr 7)) ∈
      (unlockShard tsUnlockFail ActionNodeUpdateShard (some (GoError.storeErr 3))).2.2 :=
  ⟨(unlockShard_preserves_action_error tsUnlockFail ActionNodeUpdateShard
      (GoError.storeErr 3)).1,
    (unlockShard_preserves_action_error tsUnlockFail ActionNodeUpdateShard
      (GoError.storeErr 3)).2 (GoError.storeErr 7) rfl⟩

/-- C5 (counterexample): with a successful guarded body (`actionError`
nil) and a failing store unlock, the operation's returned error is the
unlock error, not nil: at `tsUnlockFail` the guarded body of
`SetShardServedTypes` succeeds yet the call returns `storeErr 7`. -/
theorem unlock_failure_after_success_counterexample :
    (setShardServedTypes tsUnlockFail ["replica"]).1 = none ∧
    (SetShardServedTypes tsUnlockFail ["replica"]).1 = some (GoError.storeErr 7) := by
  decide

/-- C5 (amended): when the guarded body succeeds (`actionError` nil), the
release step returns exactly the store unlock call's result, so an unlock
failure surfaces as the operation's returned error instead of leaving it
nil. -/
theorem unlockShard_nil_action_returns_unlock_result (ts : TopoServer) (node : ActionNode) :
    (unlockShard ts node none).1 = ts.unlockShardForAction := by
  simp [unlockShard]

/-- C3: for both lock-acquiring operations (`SetShardServedTypes`,
`RemoveShardCell`), given the lock is acquired, exactly two ActionNode
payloads reach the store -- the fresh node in state `Queued` at lock time
and the terminal node at release time -- and the terminal node's state is
`Failed` with the body's error text iff the guarded body returned an
error, `Done` with empty error otherwise, and is never `Queued`. -/
theorem actionNode_single_transition (ts : TopoServer) (lp : String)
    (h : ts.lockShardForAction = .ok lp) :
    (∀ st : List TabletType,
      nodeWrites (SetShardServedTypes ts st).2.2 =
        [ActionNodeSetShardServedTypes st, (SetShardServedTypes ts st).2.1] ∧
      (ActionNodeSetShardServedTypes st).state = ActionState.queued ∧
      (SetShardServedTypes ts st).2.1.state =
        (if (setShardServedTypes ts st).1.isSome then ActionState.failed
         else ActionState.done) ∧
      (SetShardServedTypes ts st).2.1.error =
        (match (setShardServedTypes ts st).1 with
         | some e => goErrorMsg e
         | none => "") ∧
      (SetShardServedTypes ts st).2.1.state ≠ ActionState.queued) ∧
    (∀ (cell : String) (force : Bool),
      nodeWrites (RemoveShardCell ts cell force).2.2 =
        [ActionNodeUpdateShard, (RemoveShardCell ts cell force).2.1] ∧
      ActionNodeUpdateShard.state = ActionState.queued ∧
      (RemoveShardCell ts cell force).2.1.state =
        (if (removeShardCell ts cell force).1.isSome then ActionState.failed
         else ActionState.done) ∧
      (RemoveShardCell ts cell force).2.1.error =
        (match (removeShardCell ts cell force).1 with
         | some e => goErrorMsg e
         | none => "") ∧
      (RemoveShardCell ts cell force).2.1.state ≠ ActionState.queued) := by
  constructor
  · intro st
    simp only [SetShardServedTypes, h]
    refine ⟨?_, rfl, (unlockShard_state_spec ts _ _).1, (unlockShard_state_spec ts _ _).2, ?_⟩
    · rw [nodeWrites_cons_lock, nodeWrites_setShardServedTypes, nodeWrites_unlockShard]
      simp
    · rw [(unlockShard_state_spec ts _ _).1]
      cases (setShardServedTypes ts st).1 <;> simp
  · intro cell force
    simp only [RemoveShardCell, h]
    refine ⟨?_, rfl, (unlockShard_state_spec ts _ _).1, (unlockShard_state_spec ts _ _).2, ?_⟩
    · rw [nodeWrites_cons_lock, nodeWrites_removeShardCell, nodeWrites_unlockShard]
      simp
    · rw [(unlockShard_state_spec ts _ _).1]
      cases (removeShardCell ts cell force).1 <;> simp

/-- Witness for C3: the transition theorem applies at the healthy concrete
store, where the lock is acquired. -/
theorem actionNode_single_transition_witness :
    tsBase.lockShardForAction = .ok "/zk/lock-0001" ∧
    nodeWrites (SetShardServedTypes tsBase ["replica"]).2.2 =
      [ActionNodeSetShardServedTypes ["replica"],
        (SetShardServedTypes tsBase ["replica"]).2.1] ∧
    (SetShardServedTypes tsBase ["replica"]).2.1.state ≠ ActionState.queued :=
  ⟨rfl,
    ((actionNode_single_transition tsBase "/zk/lock-0001" rfl).1 ["replica"]).1,
    ((actionNode_single_transition tsBase "/zk/lock-0001" rfl).1 ["replica"]).2.2.2.2⟩

/-- C9: given the lock is acquired and the shard read succeeds,
`SetShardServedTypes` writes back exactly the read record with only
`ServedTypes` replaced by the requested list (every other field of every
written record is unchanged), and it performs no write to any derived
serving-directory entry: no replication-record, serving-type,
serving-shard or shard-record deletion. -/
theorem setShardServedTypes_frame (ts : TopoServer) (st : List TabletType)
    (si : ShardInfo) (lp : String)
    (hl : ts.lockShardForAction = .ok lp) (hg : ts.getShard = .ok si) :
    TopoEffect.updateShard { si with servedTypes := st } ∈ (SetShardServedTypes ts st).2.2 ∧
    (∀ si', TopoEffect.updateShard si' ∈ (SetShardServedTypes ts st).2.2 →
      si' = { si with servedTypes := st }) ∧
    (∀ c, TopoEffect.deleteShardReplication c ∉ (SetShardServedTypes ts st).2.2) ∧
    (∀ c t, TopoEffect.deleteSrvTabletType c t ∉ (SetShardServedTypes ts st).2.2) ∧
    (∀ c, TopoEffect.deleteSrvShard c ∉ (SetShardServedTypes ts st).2.2) ∧
    TopoEffect.deleteShard ∉ (SetShardServedTypes ts st).2.2 := by
  simp only [SetShardServedTypes, hl, setShardServedTypes, hg]
  cases hup : ts.updateShard <;> cases hu : ts.unlockShardForAction <;>
    simp [unlockShard, hu]

/-- Witness for C9: the frame theorem applies at the healthy concrete
store. -/
theorem setShardServedTypes_frame_witness :
    tsBase.lockShardForAction = .ok "/zk/lock-0001" ∧
    tsBase.getShard = .ok siBase ∧
    TopoEffect.updateShard { siBase with servedTypes := ["rdonly"] } ∈
      (SetShardServedTypes tsBase ["rdonly"]).2.2 :=
  ⟨rfl, rfl,
    (setShardServedTypes_frame tsBase ["rdonly"] siBase "/zk/lock-0001" rfl rfl).1⟩

/-- C2: given `GetShard` and the tablet-map fetch succeed, and given Go
error-value identity (the store never returns a value equal to a
wrangler-allocated `fmt.Errorf` error, here: the terminal deletion result
is no `errMsg`), `DeleteShard` returns the `ShardNotEmpty` error iff the
fetched tablet map is non-empty; when it is non-empty the call stops
before any per-cell cleanup (no effect at all is performed); and when it
is empty the returned error is exactly the terminal shard-record
deletion's result, regardless of every per-cell cleanup outcome. -/
theorem DeleteShard_shardNotEmpty_iff (ts : TopoServer) (ks sh : String)
    (si : ShardInfo) (m : List TabletAlias)
    (hg : ts.getShard = .ok si) (hm : ts.getTabletMapForShard = .ok m)
    (hop : ∀ s, ts.deleteShard ≠ some (GoError.errMsg s)) :
    ((DeleteShard ts ks sh).1 = some (shardNotEmptyError ks sh m.length) ↔ 0 < m.length) ∧
    (0 < m.length → (DeleteShard ts ks sh).2 = []) ∧
    (m.length = 0 → (DeleteShard ts ks sh).1 = ts.deleteShard) := by
  simp only [DeleteShard, hg, hm]
  by_cases hlen : 0 < m.length
  · have hne : m ≠ [] := by
      intro h
      subst h
      simp at hlen
    simp [hlen, hne, Nat.pos_iff_ne_zero]
  · have hz : m.length = 0 := Nat.eq_zero_of_not_pos hlen
    simp [hlen, hz, shardNotEmptyError, hop]

/-- Witness for C2: with one registered tablet, `DeleteShard` returns the
`ShardNotEmpty` error and performs no effect. -/
theorem DeleteShard_shardNotEmpty_iff_witness :
    tsOneTablet.getShard = .ok siBase ∧
    tsOneTablet.getTabletMapForShard = .ok [⟨"cellA", 101⟩] ∧
    ((DeleteShard tsOneTablet "ks" "-80").1 =
        some (shardNotEmptyError "ks" "-80" 1) ↔ 0 < (1 : Nat)) ∧
    (DeleteShard tsOneTablet "ks" "-80").2 = [] :=
  ⟨rfl, rfl,
    (DeleteShard_shardNotEmpty_iff tsOneTablet "ks" "-80" siBase [⟨"cellA", 101⟩] rfl rfl
      (fun _ h => by simp [tsOneTablet, tsBase] at h)).1,
    (DeleteShard_shardNotEmpty_iff tsOneTablet "ks" "-80" siBase [⟨"cellA", 101⟩] rfl rfl
      (fun _ h => by simp [tsOneTablet, tsBase] at h)).2.1 (by decide)⟩

/-- C1 (counterexample): the claim says removing the master's cell fails
with a `MasterInCell` error for every shard state, but the membership
check runs first (shard.go line 132 before line 137): at `tsMasterGone`
the master's cell `cellZ` is absent from `Cells`, and the call fails with
the `CellNotPresent` error instead -- while still never succeeding. -/
theorem removeShardCell_masterCell_counterexample :
    siMasterGone.masterAlias.cell = "cellZ" ∧
    (RemoveShardCell tsMasterGone "cellZ" false).1 =
      some (cellNotInShardError "cellZ") ∧
    (RemoveShardCell tsMasterGone "cellZ" false).1 ≠
      some (masterInCellError siMasterGone.masterAlias "cellZ") := by
  decide

/-- C1 (amended): with the fetched shard record's master cell equal to the
target cell, `RemoveShardCell` always returns an error and never writes a
shard record, regardless of `force`; and when the cell is also present in
`Shard.Cells` (and the lock is acquired), the error is exactly
`MasterInCell`. -/
theorem removeShardCell_masterCell_never_removed (ts : TopoServer) (cell : String)
    (force : Bool) (si : ShardInfo)
    (hg : ts.getShardCritical = .ok si) (hmc : si.masterAlias.cell = cell) :
    (RemoveShardCell ts cell force).1.isSome = true ∧
    (∀ si', TopoEffect.updateShard si' ∉ (RemoveShardCell ts cell force).2.2) ∧
    (∀ lp, ts.lockShardForAction = .ok lp → inCellList cell si.cells = true →
      (RemoveShardCell ts cell force).1 = some (masterInCellError si.masterAlias cell)) := by
  have hbody : (removeShardCell ts cell force).1 =
      some (if inCellList cell si.cells then masterInCellError si.masterAlias cell
        else cellNotInShardError cell) ∧
      (removeShardCell ts cell force).2 = [] := by
    simp only [removeShardCell, hg]
    by_cases hin : inCellList cell si.cells
    · simp [hin, hmc]
    · simp [hin]
  refine ⟨?_, ?_, ?_⟩
  · cases hl : ts.lockShardForAction with
    | error e => simp [RemoveShardCell, hl]
    | ok lp => simp [RemoveShardCell, hl, hbody.1, unlockShard]
  · intro si'
    cases hl : ts.lockShardForAction with
    | error e => simp [RemoveShardCell, hl]
    | ok lp =>
      cases hu : ts.unlockShardForAction <;>
        simp [RemoveShardCell, hl, hbody.1, hbody.2, unlockShard, hu]
  · intro lp hl hin
    simp [RemoveShardCell, hl, hbody.1, hin, unlockShard]

/-- Witness for C1: at the healthy concrete store, removing the master's
own cell `cellA` fails with `MasterInCell` and performs no shard write. -/
theorem removeShardCell_masterCell_never_removed_witness :
    tsBase.getShardCritical = .ok siBase ∧
    siBase.masterAlias.cell = "cellA" ∧
    (RemoveShardCell tsBase "cellA" true).1.isSome = true ∧
    (RemoveShardCell tsBase "cellA" true).1 =
      some (masterInCellError siBase.masterAlias "cellA") :=
  ⟨rfl, rfl,
    (removeShardCell_masterCell_never_removed tsBase "cellA" true siBase rfl rfl).1,
    (removeShardCell_masterCell_never_removed tsBase "cellA" true siBase rfl rfl).2.2
      "/zk/lock-0001" rfl (by decide)⟩

/-- C6: when the per-cell replication lookup fails with an error other
than `ErrNoNode` (all other preconditions holding and all other store
calls succeeding), `RemoveShardCell` with `force = false` returns exactly
that error, unwrapped and unmodified, and writes no shard record; with
`force = true` on the same input it logs the forcing warning, continues,
succeeds, and the written record has the cell removed. -/
theorem removeShardCell_lookup_error_force (ts : TopoServer) (cell : String)
    (si : ShardInfo) (e : GoError) (lp : String)
    (hg : ts.getShardCritical = .ok si)
    (hin : inCellList cell si.cells = true)
    (hmc : ¬ si.masterAlias.cell = cell)
    (hrepl : ts.getShardReplication cell = .error e)
    (hnn : e ≠ GoError.errNoNode)
    (hl : ts.lockShardForAction = .ok lp)
    (hupd : ts.updateShard = none)
    (hunlock : ts.unlockShardForAction = none) :
    (RemoveShardCell ts cell false).1 = some e ∧
    (∀ si', TopoEffect.updateShard si' ∉ (RemoveShardCell ts cell false).2.2) ∧
    (RemoveShardCell ts cell true).1 = none ∧
    TopoEffect.updateShard
        { si with cells := si.cells.filter (fun c => decide (c ≠ cell)) } ∈
      (RemoveShardCell ts cell true).2.2 ∧
    TopoEffect.warning ("Cannot get ShardReplication from cell " ++ cell ++
        ", assuming cell topo server is down, and forcing the removal") ∈
      (RemoveShardCell ts cell true).2.2 := by
  have hbodyF : (removeShardCell ts cell false).1 = some e ∧
      (removeShardCell ts cell false).2 = [] := by
    simp only [removeShardCell, hg]
    cases e with
    | errNoNode => exact absurd rfl hnn
    | storeErr n => simp [hin, hmc, hrepl]
    | errMsg s => simp [hin, hmc, hrepl]
  have hbodyT : (removeShardCell ts cell true).1 = ts.updateShard ∧
      (removeShardCell ts cell true).2 =
        [TopoEffect.warning ("Cannot get ShardReplication from cell " ++ cell ++
          ", assuming cell topo server is down, and forcing the removal"),
         TopoEffect.updateShard
           { si with cells := si.cells.filter (fun c => decide (c ≠ cell)) }] := by
    simp only [removeShardCell, hg]
    cases e with
    | errNoNode => exact absurd rfl hnn
    | storeErr n => simp [hin, hmc, hrepl]
    | errMsg s => simp [hin, hmc, hrepl]
  refine ⟨?_, ?_, ?_, ?_, ?_⟩
  · simp [RemoveShardCell, hl, hbodyF.1, unlockShard]
  · intro si'
    simp [RemoveShardCell, hl, hbodyF.1, hbodyF.2, unlockShard, hunlock]
  · simp [RemoveShardCell, hl, hbodyT.1, hupd, unlockShard, hunlock]
  · simp [RemoveShardCell, hl, hbodyT.1, hbodyT.2, hupd, unlockShard, hunlock]
  · simp [RemoveShardCell, hl, hbodyT.1, hbodyT.2, hupd, unlockShard, hunlock]

/-- Witness for C6: at `tsCellDown` (replication lookup in `cellB` fails
with the opaque `storeErr 42`), `force = false` surfaces that error and
`force = true` succeeds with `cellB` removed. -/
theorem removeShardCell_lookup_error_force_witness :
    tsCellDown.getShardReplication "cellB" = .error (GoError.storeErr 42) ∧
    (RemoveShardCell tsCellDown "cellB" false).1 = some (GoError.storeErr 42) ∧
    (RemoveShardCell tsCellDown "cellB" true).1 = none :=
  ⟨rfl,
    (removeShardCell_lookup_error_force tsCellDown "cellB" siBase (GoError.storeErr 42)
      "/zk/lock-0001" rfl (by decide) (by decide) rfl (by decide) rfl rfl rfl).1,
    (removeShardCell_lookup_error_force tsCellDown "cellB" siBase (GoError.storeErr 42)
      "/zk/lock-0001" rfl (by decide) (by decide) rfl (by decide) rfl rfl
      rfl).2.2.1⟩

theorem removeShardCell_update_mem (ts : TopoServer) (cell : String) (force : Bool)
    (si si' : ShardInfo) (hg : ts.getShardCritical = .ok si)
    (hmem : TopoEffect.updateShard si' ∈ (removeShardCell ts cell force).2) :
    si' = { si with cells := si.cells.filter (fun c => decide (c ≠ cell)) } := by
  simp only [removeShardCell, hg] at hmem
  by_cases hin : inCellList cell si.cells
  · by_cases hmc : si.masterAlias.cell = cell
    · simp [hin, hmc] at hmem
    · cases hr : ts.getShardReplication cell with
      | ok sri =>
        by_cases hsl : sri.length > 0
        · simp [hin, hmc, hr, hsl] at hmem
        · cases hd : ts.deleteShardReplication cell with
          | some err => simp [hin, hmc, hr, hsl, hd] at hmem
          | none =>
            simp [hin, hmc, hr, hsl, hd] at hmem
            simpa using hmem
      | error ge =>
        cases ge with
        | errNoNode =>
          simp [hin, hmc, hr] at hmem
          simpa using hmem
        | storeErr n =>
          cases force
          · simp [hin, hmc, hr] at hmem
          · simp [hin, hmc, hr] at hmem
            simpa using hmem
        | errMsg s =>
          cases force
          · simp [hin, hmc, hr] at hmem
          · simp [hin, hmc, hr] at hmem
            simpa using hmem
  · simp [hin] at hmem

theorem RemoveShardCell_update_mem (ts : TopoServer) (cell : String) (force : Bool)
    (si si' : ShardInfo) (hg : ts.getShardCritical = .ok si)
    (hmem : TopoEffect.updateShard si' ∈ (RemoveShardCell ts cell force).2.2) :
    si' = { si with cells := si.cells.filter (fun c => decide (c ≠ cell)) } := by
  cases hl : ts.lockShardForAction with
  | error e => simp [RemoveShardCell, hl] at hmem
  | ok lp =>
    simp only [RemoveShardCell, hl, List.mem_cons, List.mem_append] at hmem
    rcases hmem with h | h | h
    · simp at h
    · exact removeShardCell_update_mem ts cell force si si' hg h
    · cases hae : (removeShardCell ts cell force).1 <;>
        cases hu : ts.unlockShardForAction <;>
        simp [unlockShard, hae, hu] at h

/-- C7: whenever `RemoveShardCell` writes a shard record, the written
`Cells` equals the previous `Cells` with every occurrence of the target
cell removed and the relative order of the remaining entries preserved (a
sublist of the original containing exactly the other entries); in
particular, for `Cells = [cellA, cellB, cellC]` with an empty replication
record in `cellB`, removing `cellB` without force succeeds and writes
`Cells = [cellA, cellC]`. -/
theorem removeShardCell_cells_order (ts : TopoServer) (cell : String) (force : Bool)
    (si si' : ShardInfo) (hg : ts.getShardCritical = .ok si)
    (hmem : TopoEffect.updateShard si' ∈ (RemoveShardCell ts cell force).2.2) :
    (si'.cells = si.cells.filter (fun c => decide (c ≠ cell)) ∧
      si'.cells.Sublist si.cells ∧
      cell ∉ si'.cells ∧
      (∀ x, x ∈ si'.cells ↔ x ∈ si.cells ∧ x ≠ cell)) ∧
    ((RemoveShardCell tsBase "cellB" false).1 = none ∧
      TopoEffect.updateShard { siBase with cells := ["cellA", "cellC"] } ∈
        (RemoveShardCell tsBase "cellB" false).2.2) := by
  have h := RemoveShardCell_update_mem ts cell force si si' hg hmem
  subst h
  refine ⟨⟨rfl, List.filter_sublist _, ?_, ?_⟩, by decide⟩
  · simp
  · intro x
    simp [List.mem_filter]

/-- Witness for C7: the order theorem applies at the healthy concrete
store, whose `RemoveShardCell` on `cellB` writes `[cellA, cellC]`. -/
theorem removeShardCell_cells_order_witness :
    TopoEffect.updateShard { siBase with cells := ["cellA", "cellC"] } ∈
      (RemoveShardCell tsBase "cellB" false).2.2 ∧
    ({ siBase with cells := ["cellA", "cellC"] } : ShardInfo).cells.Sublist siBase.cells :=
  ⟨by decide,
    ((removeShardCell_cells_order tsBase "cellB" false siBase
      { siBase with cells := ["cellA", "cellC"] } rfl (by decide)).1).2.1⟩

theorem cleanup_mem_deleteShardReplication (ts : TopoServer) (ks sh cell : String) :
    TopoEffect.deleteShardReplication cell ∈ deleteShardCellCleanup ts ks sh cell := by
  unfold deleteShardCellCleanup
  simp

theorem cleanup_mem_deleteSrvShard (ts : TopoServer) (ks sh cell : String) :
    TopoEffect.deleteSrvShard cell ∈ deleteShardCellCleanup ts ks sh cell := by
  unfold deleteShardCellCleanup
  simp

theorem cleanup_mem_deleteSrvTabletType (ts : TopoServer) (ks sh cell : String)
    (t : TabletType) (ht : t ∈ allTabletTypes) (hs : isInServingGraph t = true) :
    TopoEffect.deleteSrvTabletType cell t ∈ deleteShardCellCleanup ts ks sh cell := by
  unfold deleteShardCellCleanup
  refine List.mem_append_left _ (List.mem_append_right _ ?_)
  rw [List.mem_flatMap]
  refine ⟨t, ht, ?_⟩
  rw [if_neg (by simp [hs])]
  exact List.mem_cons_self _ _

theorem cleanup_mem_warn_repl (ts : TopoServer) (ks sh cell : String) (err : GoError)
    (hd : ts.deleteShardReplication cell = some err) :
    TopoEffect.warning ("Cannot delete ShardReplication in cell " ++ cell ++ " for " ++
      ks ++ "/" ++ sh ++ ": " ++ goErrorMsg err) ∈ deleteShardCellCleanup ts ks sh cell := by
  unfold deleteShardCellCleanup
  simp [hd]

theorem cleanup_mem_warn_srvShard (ts : TopoServer) (ks sh cell : String) (err : GoError)
    (hd : ts.deleteSrvShard cell = some err) (hne : err ≠ GoError.errNoNode) :
    TopoEffect.warning ("Cannot delete SrvShard in cell " ++ cell ++ " for " ++
      ks ++ "/" ++ sh ++ ": " ++ goErrorMsg err) ∈ deleteShardCellCleanup ts ks sh cell := by
  unfold deleteShardCellCleanup
  simp [hd, hne]

/-- C8 (counterexample): the claim says not-found is treated as success
for all three per-cell deletions, but the `ShardReplication` deletion
(shard.go line 87) has no `ErrNoNode` exemption, unlike the serving-graph
deletions (lines 96 and 101): at `tsNoNodeCleanup`, where every
replication-record and serving-shard deletion reports `ErrNoNode`, the
call succeeds yet logs exactly one warning per cell -- for the
`ShardReplication` deletion, and none for the serving-shard deletion. -/
theorem deleteShard_notfound_warning_counterexample :
    tsNoNodeCleanup.deleteShardReplication "cellA" = some GoError.errNoNode ∧
    tsNoNodeCleanup.deleteSrvShard "cellA" = some GoError.errNoNode ∧
    (DeleteShard tsNoNodeCleanup "ks" "-80").1 = none ∧
    effectWarnings (DeleteShard tsNoNodeCleanup "ks" "-80").2 =
      ["Cannot delete ShardReplication in cell cellA for ks/-80: node doesn\x27t exist",
       "Cannot delete ShardReplication in cell cellB for ks/-80: node doesn\x27t exist",
       "Cannot delete ShardReplication in cell cellC for ks/-80: node doesn\x27t exist"] := by
  decide

/-- C8 (amended): given the shard read succeeds and the tablet map is
empty, `DeleteShard` attempts, for every cell in `Shard.Cells`, the
replication-record deletion, every in-serving-graph per-type serving-entry
deletion and the serving-shard deletion; no deletion outcome aborts the
loop or the terminal step; each failed replication-record deletion
(not-found included) and each failed serving-shard deletion other than
not-found is logged as a warning; and the returned error is exactly the
terminal shard-record deletion's result. -/
theorem DeleteShard_cleanup_best_effort (ts : TopoServer) (ks sh : String)
    (si : ShardInfo) (hg : ts.getShard = .ok si)
    (hm : ts.getTabletMapForShard = .ok []) :
    (DeleteShard ts ks sh).1 = ts.deleteShard ∧
    TopoEffect.deleteShard ∈ (DeleteShard ts ks sh).2 ∧
    (∀ cell ∈ si.cells,
      TopoEffect.deleteShardReplication cell ∈ (DeleteShard ts ks sh).2 ∧
      TopoEffect.deleteSrvShard cell ∈ (DeleteShard ts ks sh).2 ∧
      (∀ t ∈ allTabletTypes, isInServingGraph t = true →
        TopoEffect.deleteSrvTabletType cell t ∈ (DeleteShard ts ks sh).2) ∧
      (∀ err, ts.deleteShardReplication cell = some err →
        TopoEffect.warning ("Cannot delete ShardReplication in cell " ++ cell ++ " for " ++
          ks ++ "/" ++ sh ++ ": " ++ goErrorMsg err) ∈ (DeleteShard ts ks sh).2) ∧
      (∀ err, ts.deleteSrvShard cell = some err → err ≠ GoError.errNoNode →
        TopoEffect.warning ("Cannot delete SrvShard in cell " ++ cell ++ " for " ++
          ks ++ "/" ++ sh ++ ": " ++ goErrorMsg err) ∈ (DeleteShard ts ks sh).2)) := by
  have heff : DeleteShard ts ks sh =
      (ts.deleteShard,
        si.cells.flatMap (deleteShardCellCleanup ts ks sh) ++ [TopoEffect.deleteShard]) := by
    simp [DeleteShard, hg, hm]
  rw [heff]
  refine ⟨rfl, by simp, ?_⟩
  intro cell hc
  have hlift : ∀ x, x ∈ deleteShardCellCleanup ts ks sh cell →
      x ∈ si.cells.flatMap (deleteShardCellCleanup ts ks sh) ++ [TopoEffect.deleteShard] :=
    fun x hx => List.mem_append_left _ (List.mem_flatMap.mpr ⟨cell, hc, hx⟩)
  exact ⟨hlift _ (cleanup_mem_deleteShardReplication ts ks sh cell),
    hlift _ (cleanup_mem_deleteSrvShard ts ks sh cell),
    fun t ht hs => hlift _ (cleanup_mem_deleteSrvTabletType ts ks sh cell t ht hs),
    fun err hd => hlift _ (cleanup_mem_warn_repl ts ks sh cell err hd),
    fun err hd hne => hlift _ (cleanup_mem_warn_srvShard ts ks sh cell err hd hne)⟩

/-- Witness for C8: the best-effort theorem applies at the concrete store
whose per-cell deletions all report not-found. -/
theorem DeleteShard_cleanup_best_effort_witness :
    tsNoNodeCleanup.getShard = .ok siBase ∧
    TopoEffect.deleteShard ∈ (DeleteShard tsNoNodeCleanup "ks" "-80").2 ∧
    TopoEffect.warning ("Cannot delete ShardReplication in cell " ++ "cellA" ++ " for " ++
        "ks" ++ "/" ++ "-80" ++ ": " ++ goErrorMsg GoError.errNoNode) ∈
      (DeleteShard tsNoNodeCleanup "ks" "-80").2 :=
  ⟨rfl,
    (DeleteShard_cleanup_best_effort tsNoNodeCleanup "ks" "-80" siBase rfl rfl).2.1,
    ((DeleteShard_cleanup_best_effort tsNoNodeCleanup "ks" "-80" siBase rfl rfl).2.2
      "cellA" (by decide)).2.2.2.1 GoError.errNoNode rfl⟩

end Vitess
